import Mathlib

/-!
Verification of the PYPIT calibration master-frame propagation engine
(`pypit/armbase.py`: `SetupScience`, `UpdateMasters`) and of the object
extraction pass (`src/arextract.py`: `boxcar`, `obj_profiles`).

The Python functions are shallowly embedded as executable Lean
definitions.  Master-frame payloads are opaque naturals; numpy float
arrays are functions into a rational-or-NaN value type; the logging
facility `armsgs` (an external collaborator of the analysed sources) is
reduced to the information the spec assigns to it: `msgs.bug` is a logged
defect after which the current call returns (modelled as a Bool flag in
the result), `msgs.error` is fatal for the run (modelled as
`Except.error`).
-/

namespace Pypit

/-- One science exposure: the per-calibration-type requirement sets
(raw-frame index lists as matched by the external `arsort.match_science`
collaborator), and the master-frame slots keyed by (frame-type tag,
detector).  Modelled from the spec: `arsciexp.ScienceExposure` is not
among the analysed sources; per the spec it holds requirement sets fixed
at creation plus one optional master-frame payload per type and
detector. -/
structure SciExp where
  idx_arcs : List Nat
  idx_bias : List Nat
  idx_rn : List Nat
  idx_trace : List Nat
  idx_flat : List Nat
  idx_std : List Nat
  masters : List ((String × Nat) × Option Nat)
deriving DecidableEq

instance : Inhabited SciExp := ⟨⟨[], [], [], [], [], [], []⟩⟩

/-- Lookup in the master-frame slot store (first binding wins). -/
def mfind : List ((String × Nat) × Option Nat) → String → Nat → Option Nat
  | [], _, _ => none
  | (k, v) :: rest, t, d => if k.1 = t ∧ k.2 = d then v else mfind rest t d

/-- Modelled from the spec: `ScienceExposure.GetMasterFrame(ftype, det)`
returns the stored master-frame payload, or `None` when the slot is
empty.  `mkcopy=False` is a cheap existence check and payload copies are
value-equal, so the copy flag needs no modelling. -/
def GetMasterFrame (e : SciExp) (ftype : String) (det : Nat) : Option Nat :=
  mfind e.masters ftype det

/-- Modelled from the spec: `ScienceExposure.SetMasterFrame(frame, ftype, det)`
stores the payload in the (ftype, det) slot. -/
def SetMasterFrame (e : SciExp) (frame : Option Nat) (ftype : String) (det : Nat) : SciExp :=
  { e with masters := ((ftype, det), frame) :: e.masters }

/-- `sciexp[i]`; the out-of-range default is never relevant in the
theorems below. -/
def expAt (st : List SciExp) (i : Nat) : SciExp := st.getD i default

/-- Requirement-set dispatch of the non-flat propagation loop of
`UpdateMasters` (armbase.py lines 199-205): arc, bias and standard are
recognized; any other type (readnoise included) falls through to
`msgs.bug`. -/
def nonflatIdx (ftype : String) (e : SciExp) : Option (List Nat) :=
  if ftype = "arc" then some e.idx_arcs
  else if ftype = "bias" then some e.idx_bias
  else if ftype = "standard" then some e.idx_std
  else none

/-- Requirement-set dispatch of the two flat propagation loops of
`UpdateMasters` (armbase.py lines 174-178 and 188-192). -/
def flatIdx (chktype : String) (e : SciExp) : Option (List Nat) :=
  if chktype = "trace" then some e.idx_trace
  else if chktype = "pixelflat" then some e.idx_flat
  else none

/-- One propagation loop of `UpdateMasters`.  For each exposure index `i`
in turn: dispatch the compared requirement set via `disp`; an
unrecognized type hits `msgs.bug` and returns at once (Bool result true
means a defect was logged); otherwise, if `np.array_equal(chkarr, chkfarr)`
holds (exact ordered element-wise equality of the 1-D integer index
arrays) and exposure `i` has no `dst`-type master frame on this detector
yet, copy exposure `sc`'s `src`-type master frame into exposure `i`
tagged as `dst`. -/
def umLoop (disp : SciExp → Option (List Nat)) (sc det : Nat) (chkarr : List Nat)
    (src dst : String) : List SciExp → List Nat → List SciExp × Bool
  | st, [] => (st, false)
  | st, i :: rest =>
    match disp (expAt st i) with
    | none => (st, true)
    | some chkfarr =>
      if chkarr = chkfarr ∧ GetMasterFrame (expAt st i) dst det = none then
        umLoop disp sc det chkarr src dst
          (st.set i (SetMasterFrame (expAt st i) (GetMasterFrame (expAt st sc) src det) dst det))
          rest
      else
        umLoop disp sc det chkarr src dst st rest

/-- `armbase.UpdateMasters(sciexp, sc, det, ftype, chktype)` (lines
137-209): propagate the master frame just computed for exposure `sc` to
the other exposures that would use an identical one.  The requirement set
of the current exposure is selected by `ftype`/`chktype` (lines 156-169,
with `msgs.bug` and an immediate return on an unrecognized combination);
plain types then propagate over later exposures only (lines 196-208),
while `"flat"` first propagates within the same subtype over later
exposures (lines 170-181) and then propagates across to the other
subtype over all exposures from `sc` on (lines 182-195).  The Bool result
records whether `msgs.bug` was called. -/
def UpdateMasters (sciexp : List SciExp) (sc det : Nat) (ftype chktype : String) :
    List SciExp × Bool :=
  let numsci := sciexp.length
  let chkarrO : Option (List Nat) :=
    if ftype = "arc" then some (expAt sciexp sc).idx_arcs
    else if ftype = "bias" then some (expAt sciexp sc).idx_bias
    else if ftype = "readnoise" then some (expAt sciexp sc).idx_rn
    else if ftype = "flat" then flatIdx chktype (expAt sciexp sc)
    else if ftype = "standard" then some (expAt sciexp sc).idx_std
    else none
  match chkarrO with
  | none => (sciexp, true)
  | some chkarr =>
    if ftype = "flat" then
      let r1 := umLoop (flatIdx chktype) sc det chkarr chktype chktype sciexp
        (List.range' (sc + 1) (numsci - (sc + 1)))
      if r1.2 then r1
      else
        let othertype := if chktype = "trace" then "pixelflat" else "trace"
        umLoop (flatIdx othertype) sc det chkarr chktype othertype r1.1
          (List.range' sc (numsci - sc))
    else
      umLoop (nonflatIdx ftype) sc det chkarr ftype ftype sciexp
        (List.range' (sc + 1) (numsci - (sc + 1)))

/-! ### `SetupScience` (armbase.py lines 23-134)

Only the logic the spec covers is embedded: the fatal check on a setup
restriction without a prior setup file (lines 48-51), the construction of
the filtered science-exposure index list (lines 63-77) and the
setup/group dictionary construction (lines 78-114).  File I/O, QA
directory creation and the YAML group-file write are external
collaborators and are not modelled; the collaborators `arsort.sort_data`,
`arsort.match_science` and `arsort.instr_setup` enter as function-valued
inputs. -/

/-- One group record of the group dictionary: per-frame-type filename
lists plus the science/standard target-name lists. -/
structure GroupRec where
  types : List (String × List String)
  sciobj : List String
  stdobj : List String
deriving DecidableEq

/-- Lookup of a per-frame-type filename list in a group record. -/
def typesGet : List (String × List String) → String → List String
  | [], _ => []
  | (k, v) :: rest, key => if k = key then v else typesGet rest key

/-- Update of a per-frame-type filename list in a group record. -/
def typesSet : List (String × List String) → String → List String → List (String × List String)
  | [], key, v => [(key, v)]
  | (k, w) :: rest, key, v =>
    if k = key then (key, v) :: rest else (k, w) :: typesSet rest key v

/-- Group-record initialisation (armbase.py lines 92-98): an empty
filename list for every frame type except `unknown` and `dark`, plus
empty `sciobj`/`stdobj` target lists. -/
def initGroup (keys : List String) : GroupRec :=
  ⟨(keys.filter (fun k => !(k == "unknown" || k == "dark"))).map (fun k => (k, [])), [], []⟩

/-- One iteration of the inner filling loop of the group dictionary
(armbase.py lines 107-114): a filename is appended to the per-type list
only when not already present, and in that case a `standard` frame also
contributes its target name to `stdobj`; independently, every `science`
index occurrence appends the science frame's own target name to
`sciobj`. -/
def fillStep (key : String) (filename target : Nat → String) (scidx : Nat)
    (r : GroupRec) (idx : Nat) : GroupRec :=
  let files := typesGet r.types key
  let types2 := if filename idx ∈ files then r.types
    else typesSet r.types key (files ++ [filename idx])
  let stdobj2 := if filename idx ∉ files ∧ key = "standard"
    then r.stdobj ++ [target idx] else r.stdobj
  let sciobj2 := if key = "science" then r.sciobj ++ [target scidx] else r.sciobj
  ⟨types2, sciobj2, stdobj2⟩

/-- The inner filling loop of the group dictionary for one frame-type
`key` of one science exposure (armbase.py lines 107-114). -/
def fillKey (key : String) (idxs : List Nat) (filename target : Nat → String)
    (scidx : Nat) (r : GroupRec) : GroupRec :=
  idxs.foldl (fillStep key filename target scidx) r

/-- The per-exposure group filling pass over all frame types (armbase.py
lines 103-114, executed for the first detector), skipping `unknown` and
`dark`. -/
def fillGroup (keys : List String) (specIndex : String → List Nat)
    (filename target : Nat → String) (scidx : Nat) (r : GroupRec) : GroupRec :=
  keys.foldl (fun r key =>
    if key = "unknown" ∨ key = "dark" then r
    else fillKey key (specIndex key) filename target scidx r) r

/-- Lookup in the group dictionary. -/
def gdGet : List (String × GroupRec) → String → Option GroupRec
  | [], _ => none
  | (k, v) :: rest, key => if k = key then some v else gdGet rest key

/-- Update of the group dictionary. -/
def gdSet : List (String × GroupRec) → String → GroupRec → List (String × GroupRec)
  | [], key, v => [(key, v)]
  | (k, w) :: rest, key, v =>
    if k = key then (key, v) :: rest else (k, w) :: gdSet rest key v

/-- Inputs of `SetupScience` after metadata loading: run flags, the setup
registry state, and the collaborator results.  `instrSetup` is the
external `arsort.instr_setup` (deterministic setup identifier of a frame
and detector; modelled as a natural, the zero-padded string formatting of
the group key aside); `specIndex key sc` is
`settings.spect[key]['index'][sc]`, the calibration-frame index list
matched to science exposure `sc`; `idxSci i` is `ScienceExposure._idx_sci[0]`
of the exposure built from science frame `i`. -/
structure SetupInputs where
  calcheck : Bool
  reduceSetup : Option (List Nat)
  nexist : Nat
  numsci : Nat
  instrSetup : Nat → Nat → Nat
  ndet : Nat
  filesortKeys : List String
  specIndex : String → Nat → List Nat
  filename : Nat → String
  target : Nat → String
  idxSci : Nat → Nat

/-- The underscore-joined group key over the detectors of the mosaic
(armbase.py lines 87-90). -/
def groupKey (setup : Nat) (ndet : Nat) : String :=
  String.intercalate "_" ((List.range ndet).map (fun i => toString (setup + i)))

/-- Group-dictionary construction over the kept science exposures
(armbase.py lines 81-114).  `scii` holds the raw science-frame numbers
kept after the setup filter; following the source, the per-type index
lists are read at the position `sc` in the kept list. -/
def buildGroups (inp : SetupInputs) (scii : List Nat) : List (String × GroupRec) :=
  (List.range scii.length).foldl (fun gd sc =>
    let frameIdx := scii.getD sc 0
    let setup := inp.instrSetup frameIdx 1
    let key := groupKey setup inp.ndet
    let r0 := match gdGet gd key with
      | some r => r
      | none => initGroup inp.filesortKeys
    let scidx := inp.idxSci frameIdx
    let r1 := fillGroup inp.filesortKeys (fun k => inp.specIndex k sc)
      inp.filename inp.target scidx r0
    gdSet gd key r1) []

/-- `armbase.SetupScience` (lines 23-134), modelled up to the external
I/O collaborators: requesting a setup restriction with no prior setup
file is a fatal `msgs.error` raised before any science exposure is
constructed (lines 48-51); otherwise the kept science-frame list is built
(skipping frames whose setup is excluded by the filter, lines 67-76) and
the group dictionary is assembled (lines 78-114).  The result carries the
kept science-frame numbers and the group dictionary. -/
def SetupScience (inp : SetupInputs) : Except String (List Nat × List (String × GroupRec)) :=
  if inp.reduceSetup.isSome ∧ inp.nexist = 0 then
    Except.error "No .setup file provided. Cannot use reduce setup in Settings file"
  else
    let scii := (List.range inp.numsci).filter (fun i =>
      match inp.reduceSetup with
      | none => true
      | some setups => decide (inp.instrSetup i 1 ∈ setups))
    Except.ok (scii, buildGroups inp scii)

/-! ### Object extraction (`src/arextract.py`) -/

/-- A numpy floating-point value: a finite rational or NaN.  The
operations below propagate NaN, and `fdiv` by zero yields a non-finite
value, conflated with NaN here (in every input these definitions are
evaluated on, the numerator of such a division is itself zero, where IEEE
division indeed yields NaN).  Comparisons involving NaN are false, as in
IEEE arithmetic. -/
inductive F
  | nan
  | val (q : ℚ)
deriving DecidableEq

instance : Inhabited F := ⟨F.val 0⟩

def fadd : F → F → F
  | F.val a, F.val b => F.val (a + b)
  | _, _ => F.nan

def fsub : F → F → F
  | F.val a, F.val b => F.val (a - b)
  | _, _ => F.nan

def fmul : F → F → F
  | F.val a, F.val b => F.val (a * b)
  | _, _ => F.nan

def fdiv : F → F → F
  | F.val a, F.val b => if b = 0 then F.nan else F.val (a / b)
  | _, _ => F.nan

def fgt : F → F → Bool
  | F.val a, F.val b => decide (b < a)
  | _, _ => false

def fIsNaN : F → Bool
  | F.nan => true
  | F.val _ => false

/-- `np.sum(..., axis=1)` over one row of `nspat` columns: the empty sum
is 0 and NaN propagates (the summands are exact rationals, so numpy's
pairwise summation order is immaterial). -/
def rowSum (nspat : Nat) (f : Nat → F) : F :=
  (List.range nspat).foldl (fun acc x => fadd acc (f x)) (F.val 0)

/-- The extraction mask bit flags (arextract.py line 21):
`mask_flags = dict(bad_pix=2**0, CR=2**1, NAN=2**5)`. -/
def mask_flags : List (String × Nat) := [("bad_pix", 1), ("CR", 2), ("NAN", 32)]

/-- Python dict lookup; an absent key means a `KeyError`. -/
def flagsGet : List (String × Nat) → String → Option Nat
  | [], _ => none
  | (k, v) :: rest, key => if k = key then some v else flagsGet rest key

/-- Inputs of `arextract.boxcar` for one detector.  Frames are functions
of (row, column); `objectW` and `backgroundW` are `scitrace['object']`
and `scitrace['background']` as functions of (row, column, object).
`traceOk o` stands for `specobjs[o].check_trace(scitrace['traces'][:, o])`
(modelled from the spec: `check_trace` lives in the external `arsciexp`
collaborator, and a mismatch is fatal for the run).  `fitBg` is the
external cython collaborator `arcyutils.func2d_fit_val(xgrid, frame,
weights, order)` performing the per-row background polynomial fit. -/
structure BoxcarIn where
  nspec : Nat
  nspat : Nat
  sciframe : Nat → Nat → F
  varframe : Nat → Nat → F
  skyframe : Nat → Nat → F
  mswave : Nat → Nat → F
  bpix : Nat → Nat → F
  crmask : Nat → Nat → F
  nobj : Nat
  objectW : Nat → Nat → Nat → F
  backgroundW : Nat → Nat → Nat → F
  traceOk : Nat → Bool
  fitBg : (Nat → F) → (Nat → Nat → F) → (Nat → Nat → F) → Nat → (Nat → Nat → F)

/-- The per-object boxcar outputs stored into `specobjs[o].boxcar`
(the wavelength carries Angstrom units in the source; the unit tag is
dropped here). -/
structure BoxOut where
  wave : Nat → F
  counts : Nat → F
  var : Nat → F
  sky : Nat → F
  mask : Nat → Nat

instance : Inhabited BoxOut :=
  ⟨⟨fun _ => F.val 0, fun _ => F.val 0, fun _ => F.val 0, fun _ => F.val 0, fun _ => 0⟩⟩

/-- `np.linspace(0.0, 1.0, nspat)` (arextract.py line 51). -/
def bgfitGrid (nspat : Nat) : Nat → F :=
  fun x => if nspat ≤ 1 then F.val 0 else F.val ((x : ℚ) / ((nspat : ℚ) - 1))

/-- The per-object loop of `arextract.boxcar` (lines 54-106),
accumulating the per-object outputs and the background-correction image.
`Except.error` models the two failure exits: the `KeyError` raised by the
lookup `mask_flags['NANs']` on line 93 (the dict has keys `bad_pix`, `CR`
and `NAN` only), and the fatal `msgs.error` on a failed `check_trace`
(line 100).  Note line 86: the cosmic-ray row flags are computed from
`weight*cr_mask` where `cr_mask = 1.0 - crmask` is the complement of the
cosmic-ray hit mask. -/
def boxcarLoop (inp : BoxcarIn) (cr_mask : Nat → Nat → F) :
    List Nat → List BoxOut → (Nat → Nat → F) →
    Except String (List BoxOut × (Nat → Nat → F))
  | [], outs, bgcorr => Except.ok (outs, bgcorr)
  | o :: rest, outs, bgcorr =>
    let bgframe := inp.fitBg (bgfitGrid inp.nspat) inp.sciframe
      (fun y x => fmul (inp.backgroundW y x o) (cr_mask y x)) 1
    let weight := fun y x => inp.objectW y x o
    let sumweight := fun y => rowSum inp.nspat (fun x => weight y x)
    let wvsum := fun y =>
      fdiv (rowSum inp.nspat (fun x => fmul (inp.mswave y x) (weight y x))) (sumweight y)
    let skysum := fun y =>
      fdiv (rowSum inp.nspat (fun x => fmul (inp.skyframe y x) (weight y x))) (sumweight y)
    let scisum := fun y =>
      rowSum inp.nspat (fun x => fmul (fsub (inp.sciframe y x) (bgframe y x)) (weight y x))
    let varsum := fun y => rowSum inp.nspat (fun x => fmul (inp.varframe y x) (weight y x))
    let bgcorr2 := fun y x =>
      if fgt (fadd (inp.backgroundW y x o) (inp.objectW y x o)) (F.val 0) then bgframe y x
      else bgcorr y x
    let bp := fun y =>
      fgt (rowSum inp.nspat (fun x => fmul (weight y x) (inp.bpix y x))) (F.val 0)
    let cr := fun y =>
      fgt (rowSum inp.nspat (fun x => fmul (weight y x) (cr_mask y x))) (F.val 0)
    let boxmask1 := fun y =>
      (if bp y then (flagsGet mask_flags "bad_pix").getD 0 else 0) +
      (if cr y then (flagsGet mask_flags "CR").getD 0 else 0)
    let nans := fun y => fIsNaN (scisum y)
    let nanStep : Except String ((Nat → Nat) × (Nat → F) × (Nat → F) × (Nat → F)) :=
      if (List.range inp.nspec).any nans then
        match flagsGet mask_flags "NANs" with
        | none => Except.error "KeyError: NANs"
        | some fl =>
          Except.ok (fun y => if nans y then boxmask1 y + fl else boxmask1 y,
            fun y => if nans y then F.val 0 else scisum y,
            fun y => if nans y then F.val 0 else varsum y,
            fun y => if nans y then F.val 0 else skysum y)
      else Except.ok (boxmask1, scisum, varsum, skysum)
    match nanStep with
    | Except.error e => Except.error e
    | Except.ok (boxmask2, scisum2, varsum2, skysum2) =>
      if inp.traceOk o then
        boxcarLoop inp cr_mask rest
          (outs ++ [⟨wvsum, scisum2, varsum2, skysum2, boxmask2⟩]) bgcorr2
      else Except.error "Bad match to specobj in boxcar!"

/-- `arextract.boxcar` (lines 24-108): per-object boxcar extraction over
`nobj` traced objects, starting from `cr_mask = 1.0 - crmask` (line 50)
and a zero background-correction image (line 52). -/
def boxcar (inp : BoxcarIn) : Except String (List BoxOut × (Nat → Nat → F)) :=
  boxcarLoop inp (fun y x => fsub (F.val 1) (inp.crmask y x))
    (List.range inp.nobj) [] (fun _ _ => F.val 0)

/-- Observation helper: the stored `boxcar` record of object `o`, when
the call succeeded. -/
def boxcarOut (inp : BoxcarIn) (o : Nat) : Option BoxOut :=
  match boxcar inp with
  | Except.ok (outs, _) => outs[o]?
  | Except.error _ => none

def boxcarMask (inp : BoxcarIn) (o y : Nat) : Option Nat :=
  (boxcarOut inp o).map (fun b => b.mask y)

def boxcarCounts (inp : BoxcarIn) (o y : Nat) : Option F :=
  (boxcarOut inp o).map (fun b => b.counts y)

def boxcarVar (inp : BoxcarIn) (o y : Nat) : Option F :=
  (boxcarOut inp o).map (fun b => b.var y)

def boxcarSky (inp : BoxcarIn) (o y : Nat) : Option F :=
  (boxcarOut inp o).map (fun b => b.sky y)

/-- Observation helper: the failure message of a `boxcar` call, if any. -/
def boxcarErr (inp : BoxcarIn) : Option String :=
  match boxcar inp with
  | Except.ok _ => none
  | Except.error e => some e

/-- Branch outcome of `arextract.obj_profiles` (lines 138-144) for one
object: more than 50 good rows enters the unfinished high-S/N branch
(its `for` body is empty, followed by a debugger stop, in the source);
more than 10 enters the debugger-stub branch; otherwise no branch applies
and the loop body ends silently. -/
inductive ProfOutcome
  | highSN
  | midSN
  | fallthrough
deriving DecidableEq

/-- Per-object data of `arextract.obj_profiles` (lines 129-144): the
`slit_val`/`prof_val` sample accumulators (initialised empty on lines
132-133 and never filled by any branch of the source), the good rows,
and the branch outcome. -/
structure ProfObj where
  slit_val : List F
  prof_val : List F
  gdrow : List Nat
  outcome : ProfOutcome
deriving DecidableEq

/-- `arextract.obj_profiles(slf, det, specobjs, sciframe, varframe,
crmask, scitrace, COUNT_LIM=15.)`: for each object select the good rows
(boxcar counts strictly above `COUNT_LIM`, line 135), form the
row-normalized image (line 137), and branch on the number of good rows.
`counts o` is `specobjs[o].boxcar['counts']`.  The function raises
nothing and returns nothing; per object, the only observable data are the
accumulators, the good rows and the branch taken. -/
def obj_profiles (nspec : Nat) (sciframe : Nat → Nat → F)
    (counts : Nat → Nat → F) (nobj : Nat) (COUNT_LIM : F) : List ProfObj :=
  (List.range nobj).map (fun o =>
    let gdrow := (List.range nspec).filter (fun r => fgt (counts o r) COUNT_LIM)
    let _norm_img := fun y x => fdiv (sciframe y x) (counts o y)
    let outcome := if 50 < gdrow.length then ProfOutcome.highSN
      else if 10 < gdrow.length then ProfOutcome.midSN
      else ProfOutcome.fallthrough
    ⟨[], [], gdrow, outcome⟩)

/-- The opposite flat subtype (armbase.py lines 183-185). -/
def otherFlat (chktype : String) : String :=
  if chktype = "trace" then "pixelflat" else "trace"

/-- The requirement set of a flat subtype. -/
def flatReq (chktype : String) (e : SciExp) : List Nat :=
  if chktype = "trace" then e.idx_trace else e.idx_flat

/-- The tag under which a propagated master frame of the given type is
stored: the subtype for flats, the type itself otherwise. -/
def reqTag (ftype chktype : String) : String :=
  if ftype = "flat" then chktype else ftype

/-- The requirement set of an exposure for a recognized calibration
type. -/
def reqOf (ftype chktype : String) (e : SciExp) : List Nat :=
  if ftype = "arc" then e.idx_arcs
  else if ftype = "bias" then e.idx_bias
  else if ftype = "standard" then e.idx_std
  else flatReq chktype e

/-! ### Concrete instances used by the counterexamples and witnesses -/

/-- Two exposures whose arc requirement lists are permutations of each
other but differ in order; exposure 0 holds a computed arc master for
detector 1. -/
def exPermA : List SciExp :=
  [⟨[1, 2], [], [], [], [], [], [(("arc", 1), some 7)]⟩,
   ⟨[2, 1], [], [], [], [], [], []⟩]

/-- As `exPermA`, but exposure 1's arc requirement list is element-wise
equal to exposure 0's. -/
def exPermB : List SciExp :=
  [⟨[1, 2], [], [], [], [], [], [(("arc", 1), some 7)]⟩,
   ⟨[1, 2], [], [], [], [], [], []⟩]

/-- Exposure 0 computed a trace master from flat frame set [3]; both
exposures have pixelflat requirement set [3] and no pixelflat master. -/
def exFlatW : List SciExp :=
  [⟨[], [], [], [3], [3], [], [(("trace", 1), some 5)]⟩,
   ⟨[], [], [], [], [3], [], []⟩]

/-- Modelled from the spec: a stand-in for the external
`arcyutils.func2d_fit_val` collaborator returning a zero background
estimate (its value is irrelevant to the properties evaluated on it). -/
def zeroFit : (Nat → F) → (Nat → Nat → F) → (Nat → Nat → F) → Nat → (Nat → Nat → F) :=
  fun _ _ _ _ _ _ => F.val 0

/-- One row, one column, one object whose aperture weight is zero
everywhere (an empty aperture row), with finite unit frames and no
cosmic-ray or bad-pixel flags. -/
def inpZeroW : BoxcarIn :=
  ⟨1, 1, fun _ _ => F.val 1, fun _ _ => F.val 1, fun _ _ => F.val 1, fun _ _ => F.val 1,
   fun _ _ => F.val 0, fun _ _ => F.val 0, 1,
   fun _ _ _ => F.val 0, fun _ _ _ => F.val 0, fun _ => true, zeroFit⟩

/-- One row, one column, unit aperture weight, and a NaN science pixel,
making the summed flux of the row NaN. -/
def inpNanSci : BoxcarIn :=
  ⟨1, 1, fun _ _ => F.nan, fun _ _ => F.val 1, fun _ _ => F.val 1, fun _ _ => F.val 1,
   fun _ _ => F.val 0, fun _ _ => F.val 0, 1,
   fun _ _ _ => F.val 1, fun _ _ _ => F.val 0, fun _ => true, zeroFit⟩

/-- One row, one column, unit aperture weight, and the only aperture
pixel flagged as a cosmic-ray hit (`crmask = 1`). -/
def inpCRHit : BoxcarIn :=
  ⟨1, 1, fun _ _ => F.val 1, fun _ _ => F.val 1, fun _ _ => F.val 1, fun _ _ => F.val 1,
   fun _ _ => F.val 0, fun _ _ => F.val 1, 1,
   fun _ _ _ => F.val 1, fun _ _ _ => F.val 0, fun _ => true, zeroFit⟩

/-- As `inpCRHit`, but with no cosmic-ray hit anywhere (`crmask = 0`). -/
def inpCRNone : BoxcarIn :=
  ⟨1, 1, fun _ _ => F.val 1, fun _ _ => F.val 1, fun _ _ => F.val 1, fun _ _ => F.val 1,
   fun _ _ => F.val 0, fun _ _ => F.val 0, 1,
   fun _ _ _ => F.val 1, fun _ _ _ => F.val 0, fun _ => true, zeroFit⟩

/-- Boxcar counts giving exactly 5 good rows (counts 100 on rows 0-4,
counts 0 elsewhere, against the default limit 15). -/
def countsFiveGood : Nat → Nat → F :=
  fun _ r => if r < 5 then F.val 100 else F.val 0

/-- A run requesting a setup restriction while no prior setup file
exists. -/
def inpSetupW : SetupInputs :=
  ⟨false, some [1], 0, 0, fun _ _ => 0, 1, [], fun _ _ => [], fun _ => "", fun _ => "",
   fun _ => 0⟩

/-- Two science frames (raw ids 0 and 1) in the same group, both matched
to the same standard frame (raw id 2): the standard frame occurs once per
science exposure in the scan, but its target name is recorded only
once. -/
def inpGroups : SetupInputs :=
  ⟨false, none, 1, 2, fun _ _ => 0, 1, ["science", "standard"],
   fun k sc => if k = "science" then [sc] else [2],
   fun i => if i = 0 then "sci0" else if i = 1 then "sci1" else "std",
   fun i => if i = 0 then "T0" else if i = 1 then "T1" else "TSTD",
   fun i => i⟩

/-! ### Basic lemmas about exposure-slot access -/

theorem expAt_set_ne (st : List SciExp) (i j : Nat) (e : SciExp) (h : i ≠ j) :
    expAt (st.set i e) j = expAt st j := by
  simp [expAt, List.getD_eq_getElem?_getD, List.getElem?_set_ne h]

theorem expAt_set_self (st : List SciExp) (i : Nat) (e : SciExp) (h : i < st.length) :
    expAt (st.set i e) i = e := by
  simp [expAt, List.getD_eq_getElem?_getD, List.getElem?_set_self h]

theorem get_SetMasterFrame_same (e : SciExp) (fr : Option Nat) (t : String) (d : Nat) :
    GetMasterFrame (SetMasterFrame e fr t d) t d = fr := by
  simp [GetMasterFrame, SetMasterFrame, mfind]

theorem get_SetMasterFrame_other (e : SciExp) (fr : Option Nat) (t t2 : String) (d d2 : Nat)
    (h : ¬(t = t2 ∧ d = d2)) :
    GetMasterFrame (SetMasterFrame e fr t d) t2 d2 = GetMasterFrame e t2 d2 := by
  simp only [GetMasterFrame, SetMasterFrame, mfind]
  rw [if_neg h]

/-- One write step of a propagation loop leaves every slot other than the
written (dst, det) slot unchanged, at every exposure index. -/
theorem step_get_other (st : List SciExp) (k : Nat) (fr : Option Nat) (dst : String) (det : Nat)
    (m : Nat) (t2 : String) (d2 : Nat) (h : ¬(dst = t2 ∧ det = d2)) :
    GetMasterFrame (expAt (st.set k (SetMasterFrame (expAt st k) fr dst det)) m) t2 d2 =
      GetMasterFrame (expAt st m) t2 d2 := by
  by_cases hkm : k = m
  · subst hkm
    by_cases hk : k < st.length
    · rw [expAt_set_self st k _ hk, get_SetMasterFrame_other _ _ _ _ _ _ h]
    · rw [List.set_eq_of_length_le (Nat.le_of_not_lt hk)]
  · rw [expAt_set_ne _ _ _ _ hkm]

/-! ### Invariants of the propagation loop `umLoop` -/

theorem umLoop_length (disp : SciExp → Option (List Nat)) (sc det : Nat)
    (chkarr : List Nat) (src dst : String) (is : List Nat) :
    ∀ st : List SciExp, (umLoop disp sc det chkarr src dst st is).1.length = st.length := by
  induction is with
  | nil => intro st; rfl
  | cons i rest ih =>
    intro st
    simp only [umLoop]
    cases hdisp : disp (expAt st i) with
    | none => rfl
    | some chkfarr =>
      dsimp only
      by_cases hc : chkarr = chkfarr ∧ GetMasterFrame (expAt st i) dst det = none
      · rw [if_pos hc, ih, List.length_set]
      · rw [if_neg hc, ih]

/-- Exposures whose index is not visited by the loop are unchanged. -/
theorem umLoop_untouched (disp : SciExp → Option (List Nat)) (sc det : Nat)
    (chkarr : List Nat) (src dst : String) (is : List Nat) :
    ∀ (st : List SciExp) (j : Nat), j ∉ is →
      expAt (umLoop disp sc det chkarr src dst st is).1 j = expAt st j := by
  induction is with
  | nil => intro st j _; rfl
  | cons i rest ih =>
    intro st j hj
    have hij : i ≠ j := fun h => hj (h ▸ List.mem_cons_self i rest)
    have hjr : j ∉ rest := fun h => hj (List.mem_cons_of_mem i h)
    simp only [umLoop]
    cases hdisp : disp (expAt st i) with
    | none => rfl
    | some chkfarr =>
      dsimp only
      by_cases hc : chkarr = chkfarr ∧ GetMasterFrame (expAt st i) dst det = none
      · rw [if_pos hc, ih _ j hjr, expAt_set_ne _ _ _ _ hij]
      · rw [if_neg hc, ih _ j hjr]

/-- The loop only writes (dst, det) slots: every other slot of every
exposure is unchanged. -/
theorem umLoop_get_other (disp : SciExp → Option (List Nat)) (sc det : Nat)
    (chkarr : List Nat) (src dst : String) (is : List Nat) :
    ∀ (st : List SciExp) (j : Nat) (t2 : String) (d2 : Nat), ¬(dst = t2 ∧ det = d2) →
      GetMasterFrame (expAt (umLoop disp sc det chkarr src dst st is).1 j) t2 d2 =
        GetMasterFrame (expAt st j) t2 d2 := by
  induction is with
  | nil => intro st j t2 d2 _; rfl
  | cons i rest ih =>
    intro st j t2 d2 h
    simp only [umLoop]
    cases hdisp : disp (expAt st i) with
    | none => rfl
    | some chkfarr =>
      dsimp only
      by_cases hc : chkarr = chkfarr ∧ GetMasterFrame (expAt st i) dst det = none
      · rw [if_pos hc, ih _ j t2 d2 h, step_get_other _ _ _ _ _ _ _ _ h]
      · rw [if_neg hc, ih _ j t2 d2 h]

/-- Any observation of an exposure that ignores the master-frame slots
(such as the requirement-set lists) is unchanged by the loop. -/
theorem umLoop_obs (disp : SciExp → Option (List Nat)) (sc det : Nat)
    (chkarr : List Nat) (src dst : String) {α : Type} (g : SciExp → α)
    (hg : ∀ e fr t d, g (SetMasterFrame e fr t d) = g e) (is : List Nat) :
    ∀ (st : List SciExp) (j : Nat),
      g (expAt (umLoop disp sc det chkarr src dst st is).1 j) = g (expAt st j) := by
  induction is with
  | nil => intro st j; rfl
  | cons i rest ih =>
    intro st j
    simp only [umLoop]
    cases hdisp : disp (expAt st i) with
    | none => rfl
    | some chkfarr =>
      dsimp only
      by_cases hc : chkarr = chkfarr ∧ GetMasterFrame (expAt st i) dst det = none
      · rw [if_pos hc, ih]
        by_cases hij : i = j
        · subst hij
          by_cases hi : i < st.length
          · rw [expAt_set_self _ _ _ hi, hg]
          · rw [List.set_eq_of_length_le (Nat.le_of_not_lt hi)]
        · rw [expAt_set_ne _ _ _ _ hij]
      · rw [if_neg hc, ih]

/-- A slot that already holds a master frame is never overwritten by the
loop: every write is guarded by an emptiness check on the target slot. -/
theorem umLoop_preserve (disp : SciExp → Option (List Nat)) (sc det : Nat)
    (chkarr : List Nat) (src dst : String) (is : List Nat) :
    ∀ (st : List SciExp) (j : Nat) (t2 : String) (d2 : Nat) (f : Nat),
      GetMasterFrame (expAt st j) t2 d2 = some f →
      GetMasterFrame (expAt (umLoop disp sc det chkarr src dst st is).1 j) t2 d2 = some f := by
  induction is with
  | nil => intro st j t2 d2 f h; exact h
  | cons i rest ih =>
    intro st j t2 d2 f h
    simp only [umLoop]
    cases hdisp : disp (expAt st i) with
    | none => exact h
    | some chkfarr =>
      dsimp only
      by_cases hc : chkarr = chkfarr ∧ GetMasterFrame (expAt st i) dst det = none
      · rw [if_pos hc]
        refine ih _ j t2 d2 f ?_
        by_cases hslot : dst = t2 ∧ det = d2
        · by_cases hij : i = j
          · exfalso
            rw [hij, hslot.1, hslot.2, h] at hc
            exact Option.noConfusion hc.2
          · rw [expAt_set_ne _ _ _ _ hij]; exact h
        · rw [step_get_other _ _ _ _ _ _ _ _ hslot]; exact h
      · rw [if_neg hc]; exact ih _ j t2 d2 f h

/-- When the dispatched type is recognized the loop never reports a
defect. -/
theorem umLoop_nobug (disp : SciExp → Option (List Nat)) (g : SciExp → List Nat)
    (hdisp : ∀ e, disp e = some (g e)) (sc det : Nat)
    (chkarr : List Nat) (src dst : String) (is : List Nat) :
    ∀ st : List SciExp, (umLoop disp sc det chkarr src dst st is).2 = false := by
  induction is with
  | nil => intro st; rfl
  | cons i rest ih =>
    intro st
    simp only [umLoop, hdisp (expAt st i)]
    by_cases hc : chkarr = g (expAt st i) ∧ GetMasterFrame (expAt st i) dst det = none
    · rw [if_pos hc]; exact ih _
    · rw [if_neg hc]; exact ih _

/-- Outcome of the loop at a visited exposure `i`, for a recognized type:
if exposure `i`'s dispatched requirement set is element-wise equal to
`chkarr` and its (dst, det) slot is empty it receives exposure `sc`'s
(src, det) master frame, otherwise its slot is unchanged.  The source
slot is stable during the loop, either because `sc` is not visited or
because the written tag differs from the source tag. -/
theorem umLoop_mem (disp : SciExp → Option (List Nat)) (g : SciExp → List Nat)
    (hdisp : ∀ e, disp e = some (g e))
    (sc det : Nat) (chkarr : List Nat) (src dst : String) (is : List Nat) :
    ∀ (st : List SciExp) (i : Nat), is.Nodup → i ∈ is → i < st.length →
      (sc ∉ is ∨ src ≠ dst) →
      GetMasterFrame (expAt (umLoop disp sc det chkarr src dst st is).1 i) dst det =
        if chkarr = g (expAt st i) ∧ GetMasterFrame (expAt st i) dst det = none
        then GetMasterFrame (expAt st sc) src det
        else GetMasterFrame (expAt st i) dst det := by
  induction is with
  | nil => intro st i _ hmem; cases hmem
  | cons j rest ih =>
    intro st i hnd hmem hlen hsrc
    have hndr : rest.Nodup := (List.nodup_cons.mp hnd).2
    have hjr : j ∉ rest := (List.nodup_cons.mp hnd).1
    simp only [umLoop, hdisp (expAt st j)]
    by_cases hij : i = j
    · subst hij
      by_cases hc : chkarr = g (expAt st i) ∧ GetMasterFrame (expAt st i) dst det = none
      · rw [if_pos hc, if_pos hc,
          umLoop_untouched disp sc det chkarr src dst rest _ i hjr,
          expAt_set_self _ _ _ hlen, get_SetMasterFrame_same]
      · rw [if_neg hc, if_neg hc, umLoop_untouched disp sc det chkarr src dst rest st i hjr]
    · have hir : i ∈ rest := by
        cases List.mem_cons.mp hmem with
        | inl h => exact absurd h hij
        | inr h => exact h
      have hsrcr : sc ∉ rest ∨ src ≠ dst := by
        cases hsrc with
        | inl h => exact Or.inl (fun hm => h (List.mem_cons_of_mem j hm))
        | inr h => exact Or.inr h
      by_cases hc : chkarr = g (expAt st j) ∧ GetMasterFrame (expAt st j) dst det = none
      · rw [if_pos hc]
        have hlen2 : i < (st.set j (SetMasterFrame (expAt st j)
            (GetMasterFrame (expAt st sc) src det) dst det)).length := by
          rw [List.length_set]; exact hlen
        rw [ih _ i hndr hir hlen2 hsrcr]
        have hji : j ≠ i := fun h => hij h.symm
        have hobs : expAt (st.set j (SetMasterFrame (expAt st j)
            (GetMasterFrame (expAt st sc) src det) dst det)) i = expAt st i :=
          expAt_set_ne _ _ _ _ hji
        rw [hobs]
        have hsrcslot : GetMasterFrame (expAt (st.set j (SetMasterFrame (expAt st j)
            (GetMasterFrame (expAt st sc) src det) dst det)) sc) src det =
            GetMasterFrame (expAt st sc) src det := by
          cases hsrc with
          | inl h =>
            have hjsc : j ≠ sc := fun he => h (he ▸ List.mem_cons_self j rest)
            rw [expAt_set_ne _ _ _ _ hjsc]
          | inr h =>
            exact step_get_other _ _ _ _ _ _ _ _ (fun hp => h hp.1.symm)
        rw [hsrcslot]
      · rw [if_neg hc]
        exact ih _ i hndr hir hlen hsrcr

/-! ### Claim theorems about `UpdateMasters` -/

/-- C5: `UpdateMasters` copies a master frame only into exposures that
have no master of that type and detector yet; every master-frame slot
that is already set before a propagation call is unchanged after it — for
any current exposure, detector, type and subtype, recognized or not. -/
theorem UpdateMasters_no_overwrite (sciexp : List SciExp) (sc det : Nat)
    (ftype chktype : String) (i : Nat) (t : String) (d : Nat) (f : Nat)
    (h : GetMasterFrame (expAt sciexp i) t d = some f) :
    GetMasterFrame (expAt (UpdateMasters sciexp sc det ftype chktype).1 i) t d = some f := by
  simp only [UpdateMasters]
  split
  · exact h
  · split
    · split
      · exact umLoop_preserve _ _ _ _ _ _ _ _ i t d f h
      · exact umLoop_preserve _ _ _ _ _ _ _ _ i t d f
          (umLoop_preserve _ _ _ _ _ _ _ _ i t d f h)
    · exact umLoop_preserve _ _ _ _ _ _ _ _ i t d f h

/-- Witness for C5: exposure 0 of `exPermA` already holds arc master 7 on
detector 1, and still does after an arc propagation call. -/
theorem UpdateMasters_no_overwrite_witness :
    GetMasterFrame (expAt (UpdateMasters exPermA 0 1 "arc" "").1 0) "arc" 1 = some 7 :=
  UpdateMasters_no_overwrite exPermA 0 1 "arc" "" 0 "arc" 1 7 (by decide)

/-- C6: an unrecognized `ftype`, or `ftype = "flat"` with an unrecognized
`chktype`, makes `UpdateMasters` log a defect (`msgs.bug`) and return with
every exposure unchanged; the run itself continues. -/
theorem UpdateMasters_unrecognized_aborts (sciexp : List SciExp) (sc det : Nat)
    (ftype chktype : String)
    (h : (ftype ≠ "arc" ∧ ftype ≠ "bias" ∧ ftype ≠ "readnoise" ∧ ftype ≠ "flat" ∧
          ftype ≠ "standard") ∨
      (ftype = "flat" ∧ chktype ≠ "trace" ∧ chktype ≠ "pixelflat")) :
    UpdateMasters sciexp sc det ftype chktype = (sciexp, true) := by
  rcases h with ⟨h1, h2, h3, h4, h5⟩ | ⟨h1, h2, h3⟩
  · simp [UpdateMasters, h1, h2, h3, h4, h5]
  · subst h1
    simp [UpdateMasters, flatIdx, h2, h3]

/-- Witness for C6: frame type `junk` is rejected with a logged defect
and no state change. -/
theorem UpdateMasters_unrecognized_aborts_witness :
    UpdateMasters exPermA 0 1 "junk" "" = (exPermA, true) :=
  UpdateMasters_unrecognized_aborts exPermA 0 1 "junk" "" (Or.inl (by decide))

/-- C10: a `readnoise` call selects the current exposure's readnoise
requirement set (line 159) but the propagation loop over later exposures
does not recognize the type (lines 199-205), so no exposure is modified,
and whenever a later exposure exists the loop's first iteration logs a
defect and returns. -/
theorem UpdateMasters_readnoise_inert (sciexp : List SciExp) (sc det : Nat)
    (chktype : String) :
    (UpdateMasters sciexp sc det "readnoise" chktype).1 = sciexp ∧
    (sc + 1 < sciexp.length →
      UpdateMasters sciexp sc det "readnoise" chktype = (sciexp, true)) := by
  have hunf : UpdateMasters sciexp sc det "readnoise" chktype =
      umLoop (nonflatIdx "readnoise") sc det (expAt sciexp sc).idx_rn "readnoise" "readnoise"
        sciexp (List.range' (sc + 1) (sciexp.length - (sc + 1))) := rfl
  have hcons : ∀ k : Nat, sciexp.length - (sc + 1) = k + 1 →
      UpdateMasters sciexp sc det "readnoise" chktype = (sciexp, true) := by
    intro k hk
    rw [hunf, hk, List.range'_succ]
    rfl
  constructor
  · by_cases h : sc + 1 < sciexp.length
    · rw [hcons (sciexp.length - (sc + 1) - 1) (by omega)]
    · have h0 : sciexp.length - (sc + 1) = 0 := by omega
      rw [hunf, h0]
      rfl
  · intro h
    exact hcons (sciexp.length - (sc + 1) - 1) (by omega)

/-- Witness for C10: on the two-exposure list `exPermA`, a readnoise call
from exposure 0 leaves the state unchanged and logs a defect. -/
theorem UpdateMasters_readnoise_inert_witness :
    (UpdateMasters exPermA 0 1 "readnoise" "").1 = exPermA ∧
    UpdateMasters exPermA 0 1 "readnoise" "" = (exPermA, true) :=
  ⟨(UpdateMasters_readnoise_inert exPermA 0 1 "").1,
   (UpdateMasters_readnoise_inert exPermA 0 1 "").2 (by decide)⟩

/-- Outcome of the non-flat propagation branch for a recognized type, at
a later exposure with an element-wise equal requirement list and an empty
slot. -/
theorem nonflat_prop_aux (sciexp : List SciExp) (sc det i : Nat) (t : String)
    (g : SciExp → List Nat) (hdisp : ∀ e, nonflatIdx t e = some (g e))
    (hlt : sc < i) (hlen : i < sciexp.length)
    (hreq : g (expAt sciexp i) = g (expAt sciexp sc))
    (hnone : GetMasterFrame (expAt sciexp i) t det = none) :
    GetMasterFrame (expAt (umLoop (nonflatIdx t) sc det (g (expAt sciexp sc)) t t sciexp
        (List.range' (sc + 1) (sciexp.length - (sc + 1)))).1 i) t det =
      GetMasterFrame (expAt sciexp sc) t det := by
  have hmem : i ∈ List.range' (sc + 1) (sciexp.length - (sc + 1)) := by
    rw [List.mem_range'_1]; omega
  have hnd := List.nodup_range' (sc + 1) (sciexp.length - (sc + 1))
  have hsc : sc ∉ List.range' (sc + 1) (sciexp.length - (sc + 1)) := by
    intro hm; rw [List.mem_range'_1] at hm; omega
  rw [umLoop_mem (nonflatIdx t) g hdisp sc det (g (expAt sciexp sc)) t t
      (List.range' (sc + 1) (sciexp.length - (sc + 1))) sciexp i hnd hmem hlen (Or.inl hsc),
    if_pos ⟨hreq.symm, hnone⟩]

/-- The two-loop normal form of the flat branch of `UpdateMasters` for a
recognized subtype (the first, same-subtype loop never logs a defect, so
the cross-subtype loop always runs). -/
theorem UpdateMasters_flat_unfold (sciexp : List SciExp) (sc det : Nat) (cht : String)
    (hcht : cht = "trace" ∨ cht = "pixelflat") :
    UpdateMasters sciexp sc det "flat" cht =
      umLoop (flatIdx (otherFlat cht)) sc det (flatReq cht (expAt sciexp sc)) cht
        (otherFlat cht)
        (umLoop (flatIdx cht) sc det (flatReq cht (expAt sciexp sc)) cht cht sciexp
          (List.range' (sc + 1) (sciexp.length - (sc + 1)))).1
        (List.range' sc (sciexp.length - sc)) := by
  rcases hcht with h | h <;> subst h
  · have hbug := umLoop_nobug (flatIdx "trace") (fun e => e.idx_trace) (fun e => rfl) sc det
      ((expAt sciexp sc).idx_trace) "trace" "trace"
      (List.range' (sc + 1) (sciexp.length - (sc + 1))) sciexp
    have h0 : UpdateMasters sciexp sc det "flat" "trace" =
        (if (umLoop (flatIdx "trace") sc det (expAt sciexp sc).idx_trace "trace" "trace" sciexp
              (List.range' (sc + 1) (sciexp.length - (sc + 1)))).2 = true
          then umLoop (flatIdx "trace") sc det (expAt sciexp sc).idx_trace "trace" "trace" sciexp
            (List.range' (sc + 1) (sciexp.length - (sc + 1)))
          else umLoop (flatIdx "pixelflat") sc det (expAt sciexp sc).idx_trace "trace"
            "pixelflat"
            (umLoop (flatIdx "trace") sc det (expAt sciexp sc).idx_trace "trace" "trace" sciexp
              (List.range' (sc + 1) (sciexp.length - (sc + 1)))).1
            (List.range' sc (sciexp.length - sc))) := rfl
    rw [h0, hbug]
    rfl
  · have hbug := umLoop_nobug (flatIdx "pixelflat") (fun e => e.idx_flat) (fun e => rfl) sc det
      ((expAt sciexp sc).idx_flat) "pixelflat" "pixelflat"
      (List.range' (sc + 1) (sciexp.length - (sc + 1))) sciexp
    have h0 : UpdateMasters sciexp sc det "flat" "pixelflat" =
        (if (umLoop (flatIdx "pixelflat") sc det (expAt sciexp sc).idx_flat "pixelflat"
              "pixelflat" sciexp (List.range' (sc + 1) (sciexp.length - (sc + 1)))).2 = true
          then umLoop (flatIdx "pixelflat") sc det (expAt sciexp sc).idx_flat "pixelflat"
            "pixelflat" sciexp (List.range' (sc + 1) (sciexp.length - (sc + 1)))
          else umLoop (flatIdx "trace") sc det (expAt sciexp sc).idx_flat "pixelflat" "trace"
            (umLoop (flatIdx "pixelflat") sc det (expAt sciexp sc).idx_flat "pixelflat"
              "pixelflat" sciexp (List.range' (sc + 1) (sciexp.length - (sc + 1)))).1
            (List.range' sc (sciexp.length - sc))) := rfl
    rw [h0, hbug]
    rfl

/-- Outcome of the flat branch at the same subtype: the cross-subtype
loop writes only the other subtype's slots, so the same-subtype slot of a
later exposure with an element-wise equal requirement list and an empty
slot comes from the first loop. -/
theorem flat_same_aux (sciexp : List SciExp) (sc det i : Nat) (cht oth : String)
    (gc : SciExp → List Nat) (hdc : ∀ e, flatIdx cht e = some (gc e))
    (hoc : oth ≠ cht) (hlt : sc < i) (hlen : i < sciexp.length)
    (hreq : gc (expAt sciexp i) = gc (expAt sciexp sc))
    (hnone : GetMasterFrame (expAt sciexp i) cht det = none) :
    GetMasterFrame (expAt (umLoop (flatIdx oth) sc det (gc (expAt sciexp sc)) cht oth
        (umLoop (flatIdx cht) sc det (gc (expAt sciexp sc)) cht cht sciexp
          (List.range' (sc + 1) (sciexp.length - (sc + 1)))).1
        (List.range' sc (sciexp.length - sc))).1 i) cht det =
      GetMasterFrame (expAt sciexp sc) cht det := by
  rw [umLoop_get_other (flatIdx oth) sc det (gc (expAt sciexp sc)) cht oth
    (List.range' sc (sciexp.length - sc)) _ i cht det (fun hp => hoc hp.1)]
  have hmem : i ∈ List.range' (sc + 1) (sciexp.length - (sc + 1)) := by
    rw [List.mem_range'_1]; omega
  have hnd := List.nodup_range' (sc + 1) (sciexp.length - (sc + 1))
  have hsc : sc ∉ List.range' (sc + 1) (sciexp.length - (sc + 1)) := by
    intro hm; rw [List.mem_range'_1] at hm; omega
  rw [umLoop_mem (flatIdx cht) gc hdc sc det (gc (expAt sciexp sc)) cht cht
      (List.range' (sc + 1) (sciexp.length - (sc + 1))) sciexp i hnd hmem hlen (Or.inl hsc),
    if_pos ⟨hreq.symm, hnone⟩]

/-- Outcome of the flat branch across subtypes: exposures from `sc` on
whose other-subtype requirement list is element-wise equal to the current
one, with an empty other-subtype slot, receive the current subtype's
master tagged as the other subtype. -/
theorem flat_cross_aux (sciexp : List SciExp) (sc det i : Nat) (cht oth : String)
    (gc go : SciExp → List Nat)
    (hdo : ∀ e, flatIdx oth e = some (go e))
    (hgo : ∀ e fr t d, go (SetMasterFrame e fr t d) = go e)
    (hco : cht ≠ oth) (hle : sc ≤ i) (hlen : i < sciexp.length)
    (hreq : go (expAt sciexp i) = gc (expAt sciexp sc))
    (hnone : GetMasterFrame (expAt sciexp i) oth det = none) :
    GetMasterFrame (expAt (umLoop (flatIdx oth) sc det (gc (expAt sciexp sc)) cht oth
        (umLoop (flatIdx cht) sc det (gc (expAt sciexp sc)) cht cht sciexp
          (List.range' (sc + 1) (sciexp.length - (sc + 1)))).1
        (List.range' sc (sciexp.length - sc))).1 i) oth det =
      GetMasterFrame (expAt sciexp sc) cht det := by
  have hmem : i ∈ List.range' sc (sciexp.length - sc) := by
    rw [List.mem_range'_1]; omega
  have hnd := List.nodup_range' sc (sciexp.length - sc)
  have hlen1 : i < (umLoop (flatIdx cht) sc det (gc (expAt sciexp sc)) cht cht sciexp
      (List.range' (sc + 1) (sciexp.length - (sc + 1)))).1.length := by
    rw [umLoop_length]; exact hlen
  rw [umLoop_mem (flatIdx oth) go hdo sc det (gc (expAt sciexp sc)) cht oth
    (List.range' sc (sciexp.length - sc)) _ i hnd hmem hlen1 (Or.inr hco)]
  have hobs : go (expAt (umLoop (flatIdx cht) sc det (gc (expAt sciexp sc)) cht cht sciexp
      (List.range' (sc + 1) (sciexp.length - (sc + 1)))).1 i) = go (expAt sciexp i) :=
    umLoop_obs (flatIdx cht) sc det (gc (expAt sciexp sc)) cht cht go hgo
      (List.range' (sc + 1) (sciexp.length - (sc + 1))) sciexp i
  have hslot : GetMasterFrame (expAt (umLoop (flatIdx cht) sc det (gc (expAt sciexp sc)) cht
      cht sciexp (List.range' (sc + 1) (sciexp.length - (sc + 1)))).1 i) oth det =
      GetMasterFrame (expAt sciexp i) oth det :=
    umLoop_get_other (flatIdx cht) sc det (gc (expAt sciexp sc)) cht cht
      (List.range' (sc + 1) (sciexp.length - (sc + 1))) sciexp i oth det
      (fun hp => hco hp.1)
  rw [if_pos ⟨by rw [hobs]; exact hreq.symm, by rw [hslot]; exact hnone⟩]
  have hsc : sc ∉ List.range' (sc + 1) (sciexp.length - (sc + 1)) := by
    intro hm; rw [List.mem_range'_1] at hm; omega
  rw [umLoop_untouched (flatIdx cht) sc det (gc (expAt sciexp sc)) cht cht
    (List.range' (sc + 1) (sciexp.length - (sc + 1))) sciexp sc hsc]

/-- C1 counterexample: exposures 0 and 1 of `exPermA` have arc
requirement lists [1, 2] and [2, 1] — permutations of each other — and
every other propagation precondition holds (later index, master present
at the origin, empty slot at the target), yet the arc call leaves the
whole state unchanged, so exposure 1 receives nothing; on the twin state
`exPermB`, identical except that the lists are element-wise equal,
exposure 1 does receive the master.  Permuting the requirement list
therefore changes which exposures receive a propagated frame. -/
theorem UpdateMasters_perm_counterexample :
    ([1, 2] : List Nat).Perm [2, 1] ∧
    (expAt exPermA 0).idx_arcs = [1, 2] ∧
    (expAt exPermA 1).idx_arcs = [2, 1] ∧
    GetMasterFrame (expAt exPermA 0) "arc" 1 = some 7 ∧
    GetMasterFrame (expAt exPermA 1) "arc" 1 = none ∧
    (UpdateMasters exPermA 0 1 "arc" "").1 = exPermA ∧
    (expAt exPermB 1).idx_arcs = [1, 2] ∧
    GetMasterFrame (expAt (UpdateMasters exPermB 0 1 "arc" "").1 1) "arc" 1 = some 7 := by
  decide

/-- C1 amended: `UpdateMasters` compares requirement sets with
`np.array_equal`, i.e. exact element-wise equality of the index lists in
their stored order, not as unordered sets; for every recognized
calibration type, a later exposure whose requirement list is element-wise
equal to the current one (and whose slot is empty) receives the master
frame, while permuting a requirement list can prevent propagation. -/
theorem UpdateMasters_eq_is_ordered_listEq (sciexp : List SciExp) (sc det i : Nat)
    (ftype chktype : String)
    (hft : ftype = "arc" ∨ ftype = "bias" ∨ ftype = "standard" ∨
      (ftype = "flat" ∧ (chktype = "trace" ∨ chktype = "pixelflat")))
    (hlt : sc < i) (hlen : i < sciexp.length)
    (hreq : reqOf ftype chktype (expAt sciexp i) = reqOf ftype chktype (expAt sciexp sc))
    (hnone : GetMasterFrame (expAt sciexp i) (reqTag ftype chktype) det = none) :
    GetMasterFrame (expAt (UpdateMasters sciexp sc det ftype chktype).1 i)
        (reqTag ftype chktype) det =
      GetMasterFrame (expAt sciexp sc) (reqTag ftype chktype) det := by
  rcases hft with h | h | h | ⟨h, hcht⟩
  · subst h
    exact nonflat_prop_aux sciexp sc det i "arc" (fun e => e.idx_arcs) (fun e => rfl)
      hlt hlen hreq hnone
  · subst h
    exact nonflat_prop_aux sciexp sc det i "bias" (fun e => e.idx_bias) (fun e => rfl)
      hlt hlen hreq hnone
  · subst h
    exact nonflat_prop_aux sciexp sc det i "standard" (fun e => e.idx_std) (fun e => rfl)
      hlt hlen hreq hnone
  · subst h
    rcases hcht with h2 | h2 <;> subst h2
    · rw [UpdateMasters_flat_unfold sciexp sc det "trace" (Or.inl rfl)]
      exact flat_same_aux sciexp sc det i "trace" "pixelflat" (fun e => e.idx_trace)
        (fun e => rfl) (by decide) hlt hlen hreq hnone
    · rw [UpdateMasters_flat_unfold sciexp sc det "pixelflat" (Or.inr rfl)]
      exact flat_same_aux sciexp sc det i "pixelflat" "trace" (fun e => e.idx_flat)
        (fun e => rfl) (by decide) hlt hlen hreq hnone

/-- Witness for the amended C1: on `exPermB` (element-wise equal arc
lists), exposure 1 receives exposure 0's arc master. -/
theorem UpdateMasters_eq_is_ordered_listEq_witness :
    GetMasterFrame (expAt (UpdateMasters exPermB 0 1 "arc" "").1 1) "arc" 1 =
      GetMasterFrame (expAt exPermB 0) "arc" 1 :=
  UpdateMasters_eq_is_ordered_listEq exPermB 0 1 1 "arc" "" (Or.inl rfl) (by decide)
    (by decide) (by decide) (by decide)

/-- C4: after `UpdateMasters` for flat subtype S on exposure `sc` with
requirement set R, every exposure at index `i ≥ sc` (incl. `sc` itself)
whose requirement set for the other flat subtype equals R and which has
no master of that other subtype yet receives a copy of exposure `sc`'s
subtype-S master frame tagged as the other subtype. -/
theorem UpdateMasters_flat_cross_propagates (sciexp : List SciExp) (sc det i : Nat)
    (chktype : String) (hcht : chktype = "trace" ∨ chktype = "pixelflat")
    (hle : sc ≤ i) (hlen : i < sciexp.length)
    (hreq : flatReq (otherFlat chktype) (expAt sciexp i) = flatReq chktype (expAt sciexp sc))
    (hnone : GetMasterFrame (expAt sciexp i) (otherFlat chktype) det = none) :
    GetMasterFrame (expAt (UpdateMasters sciexp sc det "flat" chktype).1 i)
        (otherFlat chktype) det =
      GetMasterFrame (expAt sciexp sc) chktype det := by
  rcases hcht with h | h <;> subst h
  · rw [UpdateMasters_flat_unfold sciexp sc det "trace" (Or.inl rfl)]
    exact flat_cross_aux sciexp sc det i "trace" "pixelflat" (fun e => e.idx_trace)
      (fun e => e.idx_flat) (fun e => rfl) (fun e fr t d => rfl)
      (by decide) hle hlen hreq hnone
  · rw [UpdateMasters_flat_unfold sciexp sc det "pixelflat" (Or.inr rfl)]
    exact flat_cross_aux sciexp sc det i "pixelflat" "trace" (fun e => e.idx_flat)
      (fun e => e.idx_trace) (fun e => rfl) (fun e fr t d => rfl)
      (by decide) hle hlen hreq hnone

/-- Witness for C4: computing trace for exposure 0 of `exFlatW` (flat set
[3]) gives exposure 1, whose pixelflat requirement set is also [3] and
whose pixelflat slot is empty, a pixelflat-tagged copy of exposure 0's
trace master. -/
theorem UpdateMasters_flat_cross_propagates_witness :
    GetMasterFrame (expAt (UpdateMasters exFlatW 0 1 "flat" "trace").1 1) "pixelflat" 1 =
      GetMasterFrame (expAt exFlatW 0) "trace" 1 :=
  UpdateMasters_flat_cross_propagates exFlatW 0 1 1 "trace" (Or.inl rfl) (by decide)
    (by decide) (by decide) (by decide)

/-! ### Lemmas about the group-record filling loop -/

theorem typesGet_typesSet (ts : List (String × List String)) (key : String)
    (v : List String) : typesGet (typesSet ts key v) key = v := by
  induction ts with
  | nil => simp [typesSet, typesGet]
  | cons p rest ih =>
    obtain ⟨k, w⟩ := p
    by_cases h : k = key
    · simp [typesSet, typesGet, h]
    · simp [typesSet, typesGet, h, ih]

theorem fillKey_nil (key : String) (filename target : Nat → String) (scidx : Nat)
    (r : GroupRec) : fillKey key [] filename target scidx r = r := rfl

theorem fillKey_cons (key : String) (idx : Nat) (idxs : List Nat)
    (filename target : Nat → String) (scidx : Nat) (r : GroupRec) :
    fillKey key (idx :: idxs) filename target scidx r =
      fillKey key idxs filename target scidx (fillStep key filename target scidx r idx) := rfl

theorem fillStep_types_mem (key : String) (filename target : Nat → String) (scidx idx : Nat)
    (r : GroupRec) (h : filename idx ∈ typesGet r.types key) :
    (fillStep key filename target scidx r idx).types = r.types := by
  simp [fillStep, h]

theorem fillStep_types_new (key : String) (filename target : Nat → String) (scidx idx : Nat)
    (r : GroupRec) (h : filename idx ∉ typesGet r.types key) :
    typesGet (fillStep key filename target scidx r idx).types key =
      typesGet r.types key ++ [filename idx] := by
  simp only [fillStep]
  rw [if_neg h, typesGet_typesSet]

/-- The per-type filename list only ever grows at its end (insertion
order is preserved). -/
theorem fillKey_types_ext (key : String) (filename target : Nat → String) (scidx : Nat)
    (idxs : List Nat) : ∀ r : GroupRec, ∃ ext : List String,
      typesGet (fillKey key idxs filename target scidx r).types key =
        typesGet r.types key ++ ext := by
  induction idxs with
  | nil => intro r; exact ⟨[], by simp [fillKey_nil]⟩
  | cons idx idxs ih =>
    intro r
    rw [fillKey_cons]
    obtain ⟨ext, hext⟩ := ih (fillStep key filename target scidx r idx)
    by_cases h : filename idx ∈ typesGet r.types key
    · refine ⟨ext, ?_⟩
      rw [hext, fillStep_types_mem key filename target scidx idx r h]
    · refine ⟨filename idx :: ext, ?_⟩
      rw [hext, fillStep_types_new key filename target scidx idx r h, List.append_assoc]
      rfl

/-- Deduplication: a duplicate-free per-type filename list stays
duplicate-free through the filling loop. -/
theorem fillKey_types_nodup (key : String) (filename target : Nat → String) (scidx : Nat)
    (idxs : List Nat) : ∀ r : GroupRec, (typesGet r.types key).Nodup →
      (typesGet (fillKey key idxs filename target scidx r).types key).Nodup := by
  induction idxs with
  | nil => intro r h; rw [fillKey_nil]; exact h
  | cons idx idxs ih =>
    intro r h
    rw [fillKey_cons]
    refine ih (fillStep key filename target scidx r idx) ?_
    by_cases hmem : filename idx ∈ typesGet r.types key
    · rw [fillStep_types_mem key filename target scidx idx r hmem]; exact h
    · rw [fillStep_types_new key filename target scidx idx r hmem]
      simp [List.nodup_append, h, hmem]

/-- Every science index occurrence appends the science frame's target
name to `sciobj`, with no deduplication. -/
theorem fillKey_science_sciobj (filename target : Nat → String) (scidx : Nat)
    (idxs : List Nat) : ∀ r : GroupRec,
      (fillKey "science" idxs filename target scidx r).sciobj =
        r.sciobj ++ List.replicate idxs.length (target scidx) := by
  induction idxs with
  | nil => intro r; simp [fillKey_nil]
  | cons idx idxs ih =>
    intro r
    rw [fillKey_cons, ih]
    have hstep : (fillStep "science" filename target scidx r idx).sciobj =
        r.sciobj ++ [target scidx] := by
      simp [fillStep]
    rw [hstep, List.append_assoc]
    rfl

/-- A standard target name is appended exactly when the standard
filename is newly added: the growth of `stdobj` equals the growth of the
standard filename list. -/
theorem fillKey_standard_stdobj (filename target : Nat → String) (scidx : Nat)
    (idxs : List Nat) : ∀ r : GroupRec,
      (fillKey "standard" idxs filename target scidx r).stdobj.length +
          (typesGet r.types "standard").length =
        r.stdobj.length +
          (typesGet (fillKey "standard" idxs filename target scidx r).types "standard").length := by
  induction idxs with
  | nil => intro r; rw [fillKey_nil]
  | cons idx idxs ih =>
    intro r
    rw [fillKey_cons]
    by_cases hmem : filename idx ∈ typesGet r.types "standard"
    · have hstep : fillStep "standard" filename target scidx r idx = r := by
        simp [fillStep, hmem]
      rw [hstep]
      exact ih r
    · have h1 : typesGet (fillStep "standard" filename target scidx r idx).types "standard" =
          typesGet r.types "standard" ++ [filename idx] :=
        fillStep_types_new "standard" filename target scidx idx r hmem
      have h2 : (fillStep "standard" filename target scidx r idx).stdobj =
          r.stdobj ++ [target idx] := by
        simp [fillStep, hmem]
      have h3 := ih (fillStep "standard" filename target scidx r idx)
      rw [h1, h2] at h3
      simp only [List.length_append, List.length_singleton] at h3 ⊢
      omega

/-! ### Claim theorems about `SetupScience` -/

/-- C8: requesting a setup restriction when no prior setup file exists is
a fatal configuration error — `SetupScience` aborts before any science
exposure is constructed. -/
theorem SetupScience_restrict_no_file_fatal (inp : SetupInputs) (l : List Nat)
    (hset : inp.reduceSetup = some l) (hnex : inp.nexist = 0) :
    SetupScience inp =
      Except.error "No .setup file provided. Cannot use reduce setup in Settings file" := by
  simp [SetupScience, hset, hnex]

/-- Witness for C8: a run with a setup filter and no prior setup file
aborts fatally. -/
theorem SetupScience_restrict_no_file_fatal_witness :
    SetupScience inpSetupW =
      Except.error "No .setup file provided. Cannot use reduce setup in Settings file" :=
  SetupScience_restrict_no_file_fatal inpSetupW [1] rfl rfl

/-- C9 counterexample: in `inpGroups` the same standard frame (filename
`std`, target `TSTD`) occurs once for each of the two science exposures
of the group, so an append-per-occurrence semantics would record its
target twice; the code records it once (the append is guarded by the
filename-newness test), while the science targets are indeed recorded
once per occurrence. -/
theorem SetupScience_stdobj_dedup_counterexample :
    SetupScience inpGroups = Except.ok ([0, 1],
      [("0", ⟨[("science", ["sci0", "sci1"]), ("standard", ["std"])],
        ["T0", "T1"], ["TSTD"]⟩)]) ∧
    (["TSTD"] : List String) ≠ ["TSTD", "TSTD"] :=
  ⟨rfl, by decide⟩

/-- C9 amended: during group-record construction, per-frame-type
filenames are appended only when not already present (deduplicated,
order-preserving); science target names are appended once per occurrence
without deduplication; standard target names, however, are appended only
when the standard filename is newly added, i.e. they are deduplicated
together with the filename list. -/
theorem fillKey_group_semantics (filename target : Nat → String) (scidx : Nat)
    (idxs : List Nat) (key : String) (r : GroupRec) :
    (∃ ext : List String,
      typesGet (fillKey key idxs filename target scidx r).types key =
        typesGet r.types key ++ ext) ∧
    ((typesGet r.types key).Nodup →
      (typesGet (fillKey key idxs filename target scidx r).types key).Nodup) ∧
    ((fillKey "science" idxs filename target scidx r).sciobj =
      r.sciobj ++ List.replicate idxs.length (target scidx)) ∧
    ((fillKey "standard" idxs filename target scidx r).stdobj.length +
        (typesGet r.types "standard").length =
      r.stdobj.length +
        (typesGet (fillKey "standard" idxs filename target scidx r).types "standard").length) :=
  ⟨fillKey_types_ext key filename target scidx idxs r,
   fillKey_types_nodup key filename target scidx idxs r,
   fillKey_science_sciobj filename target scidx idxs r,
   fillKey_standard_stdobj filename target scidx idxs r⟩

/-- Witness for the amended C9: two occurrences of standard frame 0 add
one filename and one standard target; two science occurrences add two
science targets. -/
theorem fillKey_group_semantics_witness :
    typesGet (fillKey "standard" [0, 0] (fun _ => "f") (fun _ => "t") 0
        ⟨[("standard", [])], [], []⟩).types "standard" = [] ++ ["f"] ∧
    (fillKey "standard" [0, 0] (fun _ => "f") (fun _ => "t") 0
        ⟨[("standard", [])], [], []⟩).stdobj.length + 0 = 0 + 1 ∧
    (fillKey "science" [0, 0] (fun _ => "f") (fun _ => "t") 5
        ⟨[("science", [])], [], []⟩).sciobj = [] ++ List.replicate 2 "t" := by
  refine ⟨by decide, ?_, ?_⟩
  · have h := (fillKey_group_semantics (fun _ => "f") (fun _ => "t") 0 [0, 0] "standard"
      ⟨[("standard", [])], [], []⟩).2.2.2
    simpa using h
  · exact (fillKey_group_semantics (fun _ => "f") (fun _ => "t") 5 [0, 0] "science"
      ⟨[("science", [])], [], []⟩).2.2.1

/-! ### Claim theorems about the extraction pass -/

/-- C3: the cosmic-ray row-flag computation of `boxcar` is inverted.
The CR bit is 2 (`mask_flags['CR'] = 2**1`), yet on `inpCRHit` — whose
single aperture pixel is cosmic-ray-flagged — the row mask is 0, while on
`inpCRNone` — no cosmic-ray hit anywhere — the row mask is 2.  Line 86
computes the row flags from `weight*cr_mask` with `cr_mask = 1.0 - crmask`
(the complement of the hit mask) instead of `weight*crmask`, contradicting
the source's own flag documentation (line 18). -/
theorem boxcar_cr_flag_inverted :
    flagsGet mask_flags "CR" = some 2 ∧
    inpCRHit.crmask 0 0 = F.val 1 ∧ inpCRHit.objectW 0 0 0 = F.val 1 ∧
    boxcarMask inpCRHit 0 0 = some 0 ∧
    inpCRNone.crmask 0 0 = F.val 0 ∧ inpCRNone.objectW 0 0 0 = F.val 1 ∧
    boxcarMask inpCRNone 0 0 = some 2 := by
  refine ⟨rfl, rfl, rfl, ?_, rfl, rfl, ?_⟩
  · simp [boxcarMask, boxcarOut, boxcar, boxcarLoop, inpCRHit, rowSum, fadd, fmul, fsub,
      fdiv, fgt, fIsNaN, bgfitGrid, zeroFit, mask_flags, flagsGet, List.range_succ]
  · simp [boxcarMask, boxcarOut, boxcar, boxcarLoop, inpCRNone, rowSum, fadd, fmul, fsub,
      fdiv, fgt, fIsNaN, bgfitGrid, zeroFit, mask_flags, flagsGet, List.range_succ]

/-- C2 counterexample: on `inpZeroW`, whose single row has summed object
weight zero, the summed flux is the finite value 0 — not NaN, since the
flux sum (line 71) is never divided by `sumweight` — so the NaN handling
is not triggered: the row mask is 0 (no NAN flag) and the sky value is
left NaN (the NaN check on line 90 inspects only the flux sum). -/
theorem boxcar_zero_sumweight_counterexample :
    (∀ x, inpZeroW.objectW 0 x 0 = F.val 0) ∧
    boxcarCounts inpZeroW 0 0 = some (F.val 0) ∧
    boxcarSky inpZeroW 0 0 = some F.nan ∧
    boxcarMask inpZeroW 0 0 = some 0 := by
  refine ⟨fun x => rfl, ?_, ?_, ?_⟩ <;>
    simp [boxcarCounts, boxcarSky, boxcarMask, boxcarOut, boxcar, boxcarLoop, inpZeroW,
      rowSum, fadd, fmul, fsub, fdiv, fgt, fIsNaN, bgfitGrid, zeroFit, mask_flags, flagsGet,
      List.range_succ]

/-- C2 amended: on a row whose summed object weight is zero (finite
frames), the summed flux evaluates to 0 — not NaN — so it is the counts
and variance that are zero by plain summation, the sky (and wavelength)
sums are 0/0 = NaN and are left NaN in the output, and the mask carries
no NAN flag; when a summed flux actually is NaN, the handler crashes with
a `KeyError` — `mask_flags` has key `NAN` but line 93 looks up `NANs` —
instead of flagging and zeroing the row. -/
theorem boxcar_zero_sumweight_amended :
    boxcarCounts inpZeroW 0 0 = some (F.val 0) ∧
    boxcarVar inpZeroW 0 0 = some (F.val 0) ∧
    boxcarSky inpZeroW 0 0 = some F.nan ∧
    boxcarMask inpZeroW 0 0 = some 0 ∧
    flagsGet mask_flags "NANs" = none ∧
    boxcarErr inpNanSci = some "KeyError: NANs" := by
  refine ⟨?_, ?_, ?_, ?_, rfl, ?_⟩ <;>
    simp [boxcarCounts, boxcarVar, boxcarSky, boxcarMask, boxcarErr, boxcarOut, boxcar,
      boxcarLoop, inpZeroW, inpNanSci, rowSum, fadd, fmul, fsub, fdiv, fgt, fIsNaN,
      bgfitGrid, zeroFit, mask_flags, flagsGet, List.range_succ]

/-- C7: with exactly 5 good rows (boxcar counts above the limit 15 on
rows 0-4 of 12), `obj_profiles` takes neither the high-S/N branch nor the
middle branch; there is no else branch, so the object's loop body ends
silently with empty sample accumulators — no profile-unavailable failure
condition is raised. -/
theorem obj_profiles_silent_below_ten :
    obj_profiles 12 (fun _ _ => F.val 1) countsFiveGood 1 (F.val 15) =
      [⟨[], [], [0, 1, 2, 3, 4], ProfOutcome.fallthrough⟩] := rfl

end Pypit
